import Mathlib

/-
Verification development for the watfaq-dns crate (src/dns/src/handler.rs,
src/dns/src/lib.rs): a shallow embedding of the DNS request/response bridge
(DnsHandler) and of the listener orchestrator (get_dns_listener), with the
external hickory-proto / hickory-server interface modelled at its contract.
-/

namespace WatfaqDns

/-- DNS opcodes as used by hickory-proto op::OpCode (only the variants the
handler can observe matter; the handler compares against Query). -/
inductive OpCode
  | Query
  | Status
  | Notify
  | Update
deriving DecidableEq

/-- Display string of an opcode, mirroring hickory-proto Display impl. -/
def OpCode.toStr : OpCode → String
  | .Query => "QUERY"
  | .Status => "STATUS"
  | .Notify => "NOTIFY"
  | .Update => "UPDATE"

/-- hickory-proto op::MessageType. -/
inductive MessageType
  | Query
  | Response
deriving DecidableEq

/-- Display string of a message type, mirroring hickory-proto Display impl. -/
def MessageType.toStr : MessageType → String
  | .Query => "QUERY"
  | .Response => "RESPONSE"

/-- DNS record types; the handler only discriminates AAAA from the rest. -/
inductive RecordType
  | A
  | AAAA
  | CNAME
  | MX
  | NS
  | TXT
  | SOA
  | PTR
deriving DecidableEq

/-- hickory-proto op::ResponseCode (relevant variants). -/
inductive ResponseCode
  | NoError
  | FormErr
  | ServFail
  | NXDomain
  | NotImp
  | Refused
deriving DecidableEq

/-- EDNS pseudo-record: the DNSSEC-OK bit plus an abstract payload standing
for the rest of the OPT record (version, udp size, options). -/
structure Edns where
  dnssec_ok : Bool
  payload : Nat
deriving DecidableEq

/-- A resource record, abstracted to its type plus opaque data. -/
structure Record where
  rtype : RecordType
  rdata : Nat
deriving DecidableEq

/-- A DNS question: name, query type, query class. -/
structure Question where
  name : String
  qtype : RecordType
  qclass : Nat
deriving DecidableEq

/-- hickory-server request query (LowerQuery): it keeps the original
question; query_type and name are read from it. -/
structure LowerQuery where
  original : Question
deriving DecidableEq

/-- The query type of a lowered query, as hickory LowerQuery::query_type. -/
def LowerQuery.query_type (q : LowerQuery) : RecordType := q.original.qtype

/-- hickory-proto op::Header: the fields the handler reads or writes. -/
structure Header where
  id : Nat
  message_type : MessageType
  op_code : OpCode
  authoritative : Bool
  truncated : Bool
  recursion_desired : Bool
  recursion_available : Bool
  response_code : ResponseCode
  query_count : Nat
  answer_count : Nat
  name_server_count : Nat
  additional_count : Nat
deriving DecidableEq

/-- Header::new(): all-default header (id 0, type Query, opcode Query,
flags clear, NoError, zero counts). -/
def Header.new : Header :=
  { id := 0
    message_type := MessageType.Query
    op_code := OpCode.Query
    authoritative := false
    truncated := false
    recursion_desired := false
    recursion_available := false
    response_code := ResponseCode.NoError
    query_count := 0
    answer_count := 0
    name_server_count := 0
    additional_count := 0 }

/-- Header::response_from_request: a fresh response header copying id,
opcode and recursion-desired from the request, message type Response. -/
def Header.response_from_request (h : Header) : Header :=
  { Header.new with
    id := h.id
    op_code := h.op_code
    message_type := MessageType.Response
    recursion_desired := h.recursion_desired }

/-- hickory-proto op::Message: header plus record sections plus EDNS. -/
structure Message where
  header : Header
  queries : List Question
  answers : List Record
  name_servers : List Record
  additionals : List Record
  sig0 : List Record
  edns : Option Edns
deriving DecidableEq

/-- Message::new(): default header and empty sections. -/
def Message.new : Message :=
  { header := Header.new
    queries := []
    answers := []
    name_servers := []
    additionals := []
    sig0 := []
    edns := none }

def Message.set_op_code (m : Message) (o : OpCode) : Message :=
  { m with header := { m.header with op_code := o } }

def Message.set_message_type (m : Message) (t : MessageType) : Message :=
  { m with header := { m.header with message_type := t } }

def Message.set_recursion_desired (m : Message) (b : Bool) : Message :=
  { m with header := { m.header with recursion_desired := b } }

def Message.add_query (m : Message) (q : Question) : Message :=
  { m with queries := m.queries ++ [q] }

def Message.add_additionals (m : Message) (rs : List Record) : Message :=
  { m with additionals := m.additionals ++ rs }

def Message.add_name_servers (m : Message) (rs : List Record) : Message :=
  { m with name_servers := m.name_servers ++ rs }

def Message.add_sig0 (m : Message) (r : Record) : Message :=
  { m with sig0 := m.sig0 ++ [r] }

def Message.set_edns (m : Message) (e : Edns) : Message :=
  { m with edns := some e }

def Message.op_code (m : Message) : OpCode := m.header.op_code

def Message.message_type (m : Message) : MessageType := m.header.message_type

def Message.recursion_desired (m : Message) : Bool := m.header.recursion_desired

def Message.recursion_available (m : Message) : Bool := m.header.recursion_available

def Message.response_code (m : Message) : ResponseCode := m.header.response_code

def Message.authoritative (m : Message) : Bool := m.header.authoritative

/-- Message::answer_count: length of the answers section (u16 in Rust). -/
def Message.answer_count (m : Message) : Nat := m.answers.length % 65536

/-- Message::name_server_count: length of the name-server section. -/
def Message.name_server_count (m : Message) : Nat := m.name_servers.length % 65536

/-- Message::additional_count: length of the additionals section. -/
def Message.additional_count (m : Message) : Nat := m.additionals.length % 65536

/-- Message::extensions: the EDNS block, if any. -/
def Message.extensions (m : Message) : Option Edns := m.edns

/-- hickory-server Request: the parsed inbound DNS request handed to the
RequestHandler. Header plus query and the extra sections the handler reads. -/
structure Request where
  header : Header
  query : LowerQuery
  additionals : List Record
  name_servers : List Record
  sig0 : List Record
  edns : Option Edns
deriving DecidableEq

/-- Request::op_code, read from the request header. -/
def Request.op_code (r : Request) : OpCode := r.header.op_code

/-- Request::message_type, read from the request header. -/
def Request.message_type (r : Request) : MessageType := r.header.message_type

/-- Request::recursion_desired, read from the request header. -/
def Request.recursion_desired (r : Request) : Bool := r.header.recursion_desired

/-- hickory-server MessageResponse as the handler assembles it: a header,
the four record sections handed to MessageResponseBuilder::build (answers,
name servers, soa, additionals) and an optional EDNS block. -/
structure MsgResponse where
  header : Header
  answers : List Record
  name_servers : List Record
  soa : List Record
  additionals : List Record
  edns : Option Edns
deriving DecidableEq

/-- MessageResponseBuilder::build_no_records: response with the given
header, every record section empty, no EDNS. -/
def MsgResponse.build_no_records (h : Header) : MsgResponse :=
  { header := h
    answers := []
    name_servers := []
    soa := []
    additionals := []
    edns := none }

/-- MessageResponseBuilder::build: response with the given header and
record sections; the EDNS block starts absent. -/
def MsgResponse.build (h : Header) (ans ns soa add : List Record) : MsgResponse :=
  { header := h
    answers := ans
    name_servers := ns
    soa := soa
    additionals := add
    edns := none }

/-- MessageResponse::set_edns. -/
def MsgResponse.set_edns (r : MsgResponse) (e : Edns) : MsgResponse :=
  { r with edns := some e }

/-- ResponseHandler::send_response returns a ResponseInfo, which wraps the
header of the message that was sent. -/
def sendResponseInfo (r : MsgResponse) : Header := r.header

/-- DNSError from handler.rs: Io (transparent), InvalidOpQuery with a
formatted message, QueryFailed with a formatted message. -/
inductive DNSError
  | Io (msg : String)
  | InvalidOpQuery (msg : String)
  | QueryFailed (msg : String)
deriving DecidableEq

/-- Display of DNSError per its thiserror attributes. -/
def DNSError.toMessage : DNSError → String
  | .Io m => m
  | .InvalidOpQuery m => "invalid OP code: " ++ m
  | .QueryFailed m => "query failed: " ++ m

/-- The DnsMessageExchanger trait from lib.rs: an ipv6 policy bit and an
exchange operation from a forwarded Message to a Result of Message. -/
structure Exchanger where
  ipv6 : Bool
  exchange : Message → Except DNSError Message

/-- Outcome of one DnsHandler::handle invocation: the Result value (a
ResponseInfo header on success), the responses written through the
response handle, and the messages passed to Exchanger::exchange. -/
structure HandleOutcome where
  result : Except DNSError Header
  sent : List MsgResponse
  exchanged : List Message

/-- The forwarding message built by DnsHandler::handle before the
exchanger call (handler.rs lines 71-83): Message::new with opcode,
message type, recursion-desired, the original question, the additional
and name-server sections, all SIG0 records, and the EDNS block if any. -/
def forwardMessage (request : Request) : Message :=
  let m := Message.new
  let m := m.set_op_code request.op_code
  let m := m.set_message_type request.message_type
  let m := m.set_recursion_desired request.recursion_desired
  let m := m.add_query request.query.original
  let m := m.add_additionals request.additionals
  let m := m.add_name_servers request.name_servers
  let m := request.sig0.foldl (fun acc s => acc.add_sig0 s) m
  match request.edns with
  | some edns => m.set_edns edns
  | none => m

namespace DnsHandler

/-- DnsHandler::handle (handler.rs lines 42-119): opcode and message-type
validation, the AAAA/ipv6 policy filter, the exchanger call, and response
assembly including the DNSSEC-OK conditioned EDNS copy. -/
def handle (ex : Exchanger) (request : Request) : HandleOutcome :=
  if request.op_code ≠ OpCode.Query then
    { result := Except.error
        (DNSError.InvalidOpQuery ("invalid OP code: " ++ request.op_code.toStr))
      sent := []
      exchanged := [] }
  else if request.message_type ≠ MessageType.Query then
    { result := Except.error
        (DNSError.InvalidOpQuery ("invalid message type: " ++ request.message_type.toStr))
      sent := []
      exchanged := [] }
  else
    let header := Header.response_from_request request.header
    if request.query.query_type = RecordType.AAAA ∧ ex.ipv6 = false then
      let header := { header with authoritative := true }
      let resp := MsgResponse.build_no_records header
      { result := Except.ok (sendResponseInfo resp)
        sent := [resp]
        exchanged := [] }
    else
      let m := forwardMessage request
      match ex.exchange m with
      | Except.ok a =>
        let header :=
          { header with
            recursion_available := a.recursion_available
            response_code := a.response_code
            authoritative := a.authoritative
            answer_count := a.answer_count
            name_server_count := a.name_server_count
            additional_count := a.additional_count }
        let rv := MsgResponse.build header a.answers a.name_servers [] a.additionals
        let rv :=
          match request.edns with
          | some edns =>
            if edns.dnssec_ok then
              match a.extensions with
              | some e => rv.set_edns e
              | none => rv
            else rv
          | none => rv
        { result := Except.ok (sendResponseInfo rv)
          sent := [rv]
          exchanged := [m] }
      | Except.error e =>
        { result := Except.error (DNSError.QueryFailed e.toMessage)
          sent := []
          exchanged := [m] }

/-- The ServFail response info built by handle_request on any bridge
failure: Header::new with response code ServFail. -/
def servFailInfo : Header :=
  { Header.new with response_code := ResponseCode.ServFail }

/-- RequestHandler::handle_request (handler.rs lines 127-149): delegate to
handle; on success return its ResponseInfo, on error return a fresh
ServFail header as the ResponseInfo. The sent list records everything that
was actually written through the response handle. -/
def handle_request (ex : Exchanger) (request : Request) : Header × List MsgResponse :=
  let o := handle ex request
  match o.result with
  | Except.ok info => (info, o.sent)
  | Except.error _ => (servFailInfo, o.sent)

end DnsHandler

/-- A private key as produced by the utils loaders: either the built-in
default or material loaded from a path (abstract data). -/
inductive PrivKey
  | builtinDefault
  | custom (data : Nat)
deriving DecidableEq

/-- A certificate chain as produced by the utils loaders. -/
inductive CertChain
  | builtinDefault
  | custom (data : Nat)
deriving DecidableEq

/-- load_default_key from utils: the built-in default private key. -/
def load_default_key : PrivKey := PrivKey.builtinDefault

/-- load_default_cert from utils: the built-in default cert chain. -/
def load_default_cert : CertChain := CertChain.builtinDefault

/-- Path::join of the working directory and a config-given relative path. -/
def pathJoin (cwd p : String) : String := cwd ++ "/" ++ p

/-- The effectful environment get_dns_listener runs against: socket binds,
the fallible key and cert loaders of utils, and the fallible
register_https/tls/h3_listener calls of hickory ServerFuture. -/
structure Env where
  bindUdp : String → Except String Unit
  bindTcp : String → Except String Unit
  loadPrivKey : String → Except String PrivKey
  loadCertChain : String → Except String CertChain
  registerHttps : String → Except String Unit
  registerTls : String → Except String Unit
  registerH3 : String → Except String Unit

/-- The per-transport server key resolution in get_dns_listener:
ca_key.map(load_priv_key(cwd.join(x))).transpose()?.unwrap_or(default). -/
def resolveKey (env : Env) (cwd : String) (caKey : Option String) :
    Except String PrivKey :=
  match caKey.map (fun x => env.loadPrivKey (pathJoin cwd x)) with
  | some (Except.error e) => Except.error e
  | some (Except.ok k) => Except.ok k
  | none => Except.ok load_default_key

/-- The per-transport server cert resolution in get_dns_listener:
ca_cert.map(load_cert_chain(cwd.join(x))).transpose()?.unwrap_or(default). -/
def resolveCert (env : Env) (cwd : String) (caCert : Option String) :
    Except String CertChain :=
  match caCert.map (fun x => env.loadCertChain (pathJoin cwd x)) with
  | some (Except.error e) => Except.error e
  | some (Except.ok c) => Except.ok c
  | none => Except.ok load_default_cert

/-- The key-then-cert resolution sequence performed inside each TLS-bearing
transport block of get_dns_listener; an error in either load fails the
whole resolution. -/
def resolveMaterial (env : Env) (cwd : String)
    (caKey caCert : Option String) : Except String (CertChain × PrivKey) :=
  match resolveKey env cwd caKey with
  | Except.error e => Except.error e
  | Except.ok k =>
    match resolveCert env cwd caCert with
    | Except.error e => Except.error e
    | Except.ok c => Except.ok (c, k)

/-- DoHConfig from lib.rs. -/
structure DoHConfig where
  addr : String
  ca_cert : Option String
  ca_key : Option String
  hostname : Option String
deriving DecidableEq

/-- DoTConfig from lib.rs. -/
structure DoTConfig where
  addr : String
  ca_cert : Option String
  ca_key : Option String
deriving DecidableEq

/-- DoH3Config from lib.rs. -/
structure DoH3Config where
  addr : String
  ca_cert : Option String
  ca_key : Option String
  hostname : Option String
deriving DecidableEq

/-- DNSListenAddr from lib.rs: the optional per-transport configs. -/
structure DNSListenAddr where
  udp : Option String
  tcp : Option String
  doh : Option DoHConfig
  dot : Option DoTConfig
  doh3 : Option DoH3Config
deriving DecidableEq

/-- DNSListenAddr::default(): every transport absent. -/
def DNSListenAddr.default : DNSListenAddr :=
  { udp := none, tcp := none, doh := none, dot := none, doh3 := none }

/-- A socket bind attempted by get_dns_listener: UdpSocket::bind or
TcpListener::bind at an address. -/
inductive BindEvent
  | udp (addr : String)
  | tcp (addr : String)
deriving DecidableEq

/-- DEFAULT_DNS_SERVER_TIMEOUT from handler.rs: Duration::from_secs(5),
modelled in seconds. -/
def DEFAULT_DNS_SERVER_TIMEOUT : Nat := 5

/-- A registration performed on the ServerFuture: register_socket (UDP),
register_listener (TCP), register_https_listener (DoH),
register_tls_listener (DoT), register_h3_listener (DoH3), with the
arguments the code passes. -/
inductive RegEvent
  | socket (addr : String)
  | listener (addr : String) (timeout : Nat)
  | https (addr : String) (timeout : Nat) (cert : CertChain) (key : PrivKey)
      (hostname : Option String)
  | tls (addr : String) (timeout : Nat) (cert : CertChain) (key : PrivKey)
  | h3 (addr : String) (timeout : Nat) (cert : CertChain) (key : PrivKey)
      (hostname : Option String)
deriving DecidableEq

/-- The transport a registration event belongs to. -/
inductive Transport
  | udp
  | tcp
  | doh
  | dot
  | doh3
deriving DecidableEq

/-- Tag of a registration event. -/
def RegEvent.tag : RegEvent → Transport
  | .socket _ => Transport.udp
  | .listener _ _ => Transport.tcp
  | .https _ _ _ _ _ => Transport.doh
  | .tls _ _ _ _ => Transport.dot
  | .h3 _ _ _ _ _ => Transport.doh3

/-- The timeout argument a registration event carries, if its registering
call takes one (register_socket takes none). -/
def RegEvent.timeout : RegEvent → Option Nat
  | .socket _ => none
  | .listener _ t => some t
  | .https _ t _ _ _ => some t
  | .tls _ t _ _ => some t
  | .h3 _ t _ _ _ => some t

/-- Orchestration state threaded through get_dns_listener: the has_server
flag, the binds attempted, and the registrations performed, in order. -/
structure OrchSt where
  has_server : Bool
  binds : List BindEvent
  events : List RegEvent
deriving DecidableEq

/-- Initial orchestration state. -/
def OrchSt.init : OrchSt := { has_server := false, binds := [], events := [] }

/-- The UDP block of get_dns_listener (handler.rs lines 167-176): set
has_server, bind the UDP socket, register it; a bind failure early-returns
None (modelled as Except.error carrying the state). -/
def stepUdp (env : Env) (st : OrchSt) : Option String → Except OrchSt OrchSt
  | none => Except.ok st
  | some addr =>
    let st := { st with has_server := true, binds := st.binds ++ [BindEvent.udp addr] }
    match env.bindUdp addr with
    | Except.ok _ => Except.ok { st with events := st.events ++ [RegEvent.socket addr] }
    | Except.error _ => Except.error st

/-- The TCP block of get_dns_listener (handler.rs lines 177-186). -/
def stepTcp (env : Env) (st : OrchSt) : Option String → Except OrchSt OrchSt
  | none => Except.ok st
  | some addr =>
    let st := { st with has_server := true, binds := st.binds ++ [BindEvent.tcp addr] }
    match env.bindTcp addr with
    | Except.ok _ =>
      Except.ok
        { st with events := st.events ++ [RegEvent.listener addr DEFAULT_DNS_SERVER_TIMEOUT] }
    | Except.error _ => Except.error st

/-- The DoH block of get_dns_listener (handler.rs lines 187-216): bind TCP,
resolve key and cert, register the HTTPS listener; any failure
early-returns None. -/
def stepDoh (env : Env) (cwd : String) (st : OrchSt) :
    Option DoHConfig → Except OrchSt OrchSt
  | none => Except.ok st
  | some c =>
    let st := { st with has_server := true, binds := st.binds ++ [BindEvent.tcp c.addr] }
    match env.bindTcp c.addr with
    | Except.error _ => Except.error st
    | Except.ok _ =>
      match resolveMaterial env cwd c.ca_key c.ca_cert with
      | Except.error _ => Except.error st
      | Except.ok (server_cert, server_key) =>
        match env.registerHttps c.addr with
        | Except.error _ => Except.error st
        | Except.ok _ =>
          Except.ok
            { st with
              events := st.events ++
                [RegEvent.https c.addr DEFAULT_DNS_SERVER_TIMEOUT server_cert server_key
                  c.hostname] }

/-- The DoT block of get_dns_listener (handler.rs lines 217-241). -/
def stepDot (env : Env) (cwd : String) (st : OrchSt) :
    Option DoTConfig → Except OrchSt OrchSt
  | none => Except.ok st
  | some c =>
    let st := { st with has_server := true, binds := st.binds ++ [BindEvent.tcp c.addr] }
    match env.bindTcp c.addr with
    | Except.error _ => Except.error st
    | Except.ok _ =>
      match resolveMaterial env cwd c.ca_key c.ca_cert with
      | Except.error _ => Except.error st
      | Except.ok (server_cert, server_key) =>
        match env.registerTls c.addr with
        | Except.error _ => Except.error st
        | Except.ok _ =>
          Except.ok
            { st with
              events := st.events ++
                [RegEvent.tls c.addr DEFAULT_DNS_SERVER_TIMEOUT server_cert server_key] }

/-- The DoH3 block of get_dns_listener (handler.rs lines 243-272): binds a
UDP socket and registers the H3 listener. -/
def stepDoh3 (env : Env) (cwd : String) (st : OrchSt) :
    Option DoH3Config → Except OrchSt OrchSt
  | none => Except.ok st
  | some c =>
    let st := { st with has_server := true, binds := st.binds ++ [BindEvent.udp c.addr] }
    match env.bindUdp c.addr with
    | Except.error _ => Except.error st
    | Except.ok _ =>
      match resolveMaterial env cwd c.ca_key c.ca_cert with
      | Except.error _ => Except.error st
      | Except.ok (server_cert, server_key) =>
        match env.registerH3 c.addr with
        | Except.error _ => Except.error st
        | Except.ok _ =>
          Except.ok
            { st with
              events := st.events ++
                [RegEvent.h3 c.addr DEFAULT_DNS_SERVER_TIMEOUT server_cert server_key
                  c.hostname] }

/-- The transport loop of get_dns_listener in source order: UDP, TCP, DoH,
DoT, DoH3; Except.error models the early None return on any failure. -/
def runTransports (env : Env) (listen : DNSListenAddr) (cwd : String) :
    Except OrchSt OrchSt := do
  let st ← stepUdp env OrchSt.init listen.udp
  let st ← stepTcp env st listen.tcp
  let st ← stepDoh env cwd st listen.doh
  let st ← stepDot env cwd st listen.dot
  let st ← stepDoh3 env cwd st listen.doh3
  pure st

/-- get_dns_listener (handler.rs lines 154-286): run the transport blocks;
on an early failure return None; with no transport configured return None;
otherwise return Some server, represented by its registration list. The
first component is the final orchestration state (binds attempted,
registrations performed) in every outcome. -/
def get_dns_listener (env : Env) (listen : DNSListenAddr) (cwd : String) :
    OrchSt × Option (List RegEvent) :=
  match runTransports env listen cwd with
  | Except.error st => (st, none)
  | Except.ok st => if st.has_server then (st, some st.events) else (st, none)

/-- Failure of an Except-valued environment operation. -/
def exceptFails {ε α : Type} (x : Except ε α) : Prop := ∃ e, x = Except.error e

lemma except_bind_error {ε α β : Type} (e : ε) (f : α → Except ε β) :
    (Except.error e >>= f) = (Except.error e : Except ε β) := rfl

lemma except_bind_ok {ε α β : Type} (a : α) (f : α → Except ε β) :
    (Except.ok a >>= f) = f a := rfl

lemma foldl_add_sig0 (l : List Record) (m : Message) :
    l.foldl (fun acc s => acc.add_sig0 s) m = { m with sig0 := m.sig0 ++ l } := by
  induction l generalizing m with
  | nil => simp
  | cons a t ih =>
    rw [List.foldl_cons, ih]
    simp [Message.add_sig0]

lemma forwardMessage_eq (request : Request) :
    forwardMessage request =
      { header :=
          { Header.new with
            op_code := request.op_code
            message_type := request.message_type
            recursion_desired := request.recursion_desired }
        queries := [request.query.original]
        answers := []
        name_servers := request.name_servers
        additionals := request.additionals
        sig0 := request.sig0
        edns := request.edns } := by
  unfold forwardMessage
  cases h : request.edns <;>
    simp [h, Message.new, Message.set_op_code, Message.set_message_type,
      Message.set_recursion_desired, Message.add_query, Message.add_additionals,
      Message.add_name_servers, Message.set_edns, foldl_add_sig0]

/-- An exchanger whose ipv6 policy is false; its exchange operation is a
stub that the filtered paths never reach. -/
def exNoIpv6 : Exchanger :=
  { ipv6 := false, exchange := fun _ => Except.error (DNSError.Io "unreached") }

/-- A well-formed AAAA query request. -/
def reqAAAA : Request :=
  { header := Header.new
    query := { original := { name := "www.example.com.", qtype := RecordType.AAAA, qclass := 1 } }
    additionals := []
    name_servers := []
    sig0 := []
    edns := none }

/-- A request whose opcode is not QUERY. -/
def reqBadOp : Request :=
  { header := { Header.new with op_code := OpCode.Status }
    query := { original := { name := "www.example.com.", qtype := RecordType.A, qclass := 1 } }
    additionals := []
    name_servers := []
    sig0 := []
    edns := none }

/-- A request with opcode QUERY but message type RESPONSE. -/
def reqBadMt : Request :=
  { header := { Header.new with message_type := MessageType.Response }
    query := { original := { name := "www.example.com.", qtype := RecordType.A, qclass := 1 } }
    additionals := []
    name_servers := []
    sig0 := []
    edns := none }

/-- C3: for every validated query whose question type is AAAA, when the
exchanger ipv6 policy is false, the bridge sends exactly one response with
response code NoError, all record sections empty and the authoritative
flag set, and the exchanger is never invoked. -/
theorem c3_aaaa_filter (ex : Exchanger) (request : Request)
    (hop : request.op_code = OpCode.Query)
    (hmt : request.message_type = MessageType.Query)
    (ht : request.query.query_type = RecordType.AAAA)
    (hv : ex.ipv6 = false) :
    (DnsHandler.handle ex request).exchanged = [] ∧
    ∃ r, (DnsHandler.handle ex request).sent = [r] ∧
      r.header.response_code = ResponseCode.NoError ∧
      r.header.authoritative = true ∧
      r.answers = [] ∧ r.name_servers = [] ∧ r.soa = [] ∧ r.additionals = [] := by
  unfold DnsHandler.handle
  simp [hop, hmt, ht, hv, MsgResponse.build_no_records, sendResponseInfo,
    Header.response_from_request, Header.new]

/-- c3 witness at a concrete AAAA request against a concrete exchanger
whose ipv6 policy is false. -/
theorem c3_witness :
    reqAAAA.op_code = OpCode.Query ∧
    reqAAAA.message_type = MessageType.Query ∧
    reqAAAA.query.query_type = RecordType.AAAA ∧
    exNoIpv6.ipv6 = false ∧
    ((DnsHandler.handle exNoIpv6 reqAAAA).exchanged = [] ∧
     ∃ r, (DnsHandler.handle exNoIpv6 reqAAAA).sent = [r] ∧
       r.header.response_code = ResponseCode.NoError ∧
       r.header.authoritative = true ∧
       r.answers = [] ∧ r.name_servers = [] ∧ r.soa = [] ∧ r.additionals = []) :=
  ⟨rfl, rfl, rfl, rfl, c3_aaaa_filter exNoIpv6 reqAAAA rfl rfl rfl rfl⟩

/-- c4 counterexample: a message-type failure produces the same error
constructor InvalidOpQuery as an opcode failure does; the DNSError type of
the code has no distinct InvalidMessageType kind, only the message string
differs. -/
theorem c4_counterexample :
    (DnsHandler.handle exNoIpv6 reqBadMt).result =
      Except.error (DNSError.InvalidOpQuery "invalid message type: RESPONSE") ∧
    (DnsHandler.handle exNoIpv6 reqBadOp).result =
      Except.error (DNSError.InvalidOpQuery "invalid OP code: STATUS") :=
  ⟨rfl, rfl⟩

/-- C4 (amended): validation is in order with first failure winning; an
opcode that is not QUERY fails with InvalidOpQuery carrying an invalid OP
code message, a message type that is not QUERY fails with the same
InvalidOpQuery kind carrying an invalid message type message; in both
cases the exchanger is never called and the entry point returns a ServFail
response info. -/
theorem c4_validation_order (ex : Exchanger) (request : Request) :
    (request.op_code ≠ OpCode.Query →
      (DnsHandler.handle ex request).result =
        Except.error
          (DNSError.InvalidOpQuery ("invalid OP code: " ++ request.op_code.toStr)) ∧
      (DnsHandler.handle ex request).exchanged = [] ∧
      (DnsHandler.handle_request ex request).1.response_code = ResponseCode.ServFail) ∧
    (request.op_code = OpCode.Query → request.message_type ≠ MessageType.Query →
      (DnsHandler.handle ex request).result =
        Except.error
          (DNSError.InvalidOpQuery
            ("invalid message type: " ++ request.message_type.toStr)) ∧
      (DnsHandler.handle ex request).exchanged = [] ∧
      (DnsHandler.handle_request ex request).1.response_code = ResponseCode.ServFail) := by
  constructor
  · intro h1
    simp [DnsHandler.handle, DnsHandler.handle_request, DnsHandler.servFailInfo, h1,
      Header.new]
  · intro h1 h2
    simp [DnsHandler.handle, DnsHandler.handle_request, DnsHandler.servFailInfo, h1, h2,
      Header.new]

/-- c4 witness at a concrete request with opcode QUERY and message type
RESPONSE. -/
theorem c4_witness :
    reqBadMt.op_code = OpCode.Query ∧
    reqBadMt.message_type ≠ MessageType.Query ∧
    ((DnsHandler.handle exNoIpv6 reqBadMt).result =
      Except.error
        (DNSError.InvalidOpQuery
          ("invalid message type: " ++ reqBadMt.message_type.toStr)) ∧
     (DnsHandler.handle exNoIpv6 reqBadMt).exchanged = [] ∧
     (DnsHandler.handle_request exNoIpv6 reqBadMt).1.response_code =
       ResponseCode.ServFail) :=
  ⟨rfl, by decide, (c4_validation_order exNoIpv6 reqBadMt).2 rfl (by decide)⟩

/-- c2 counterexample: on a request the bridge rejects, the entry point
writes nothing through the response handle; the sent list of the concrete
run is empty, so no ServFail response reaches the client. -/
theorem c2_counterexample :
    (∃ e, (DnsHandler.handle exNoIpv6 reqBadOp).result = Except.error e) ∧
    (DnsHandler.handle_request exNoIpv6 reqBadOp).2 = [] :=
  ⟨⟨DNSError.InvalidOpQuery "invalid OP code: STATUS", rfl⟩, rfl⟩

/-- C2 (amended): on every bridge failure the transport-facing entry point
returns a minimal response info whose code is ServFail (a fresh header, no
records), but it sends nothing through the response handle; the failure is
reported to the serving framework only, not answered to the client. -/
theorem c2_failure_servfail_info (ex : Exchanger) (request : Request) (e : DNSError)
    (h : (DnsHandler.handle ex request).result = Except.error e) :
    DnsHandler.handle_request ex request = (DnsHandler.servFailInfo, []) := by
  by_cases h1 : request.op_code = OpCode.Query
  · by_cases h2 : request.message_type = MessageType.Query
    · by_cases h3 : request.query.query_type = RecordType.AAAA ∧ ex.ipv6 = false
      · simp [DnsHandler.handle, h1, h2, h3] at h
      · cases hx : ex.exchange (forwardMessage request) with
        | ok a => simp [DnsHandler.handle, h1, h2, h3, hx] at h
        | error e2 =>
          simp [DnsHandler.handle, DnsHandler.handle_request, h1, h2, h3, hx]
    · simp [DnsHandler.handle, DnsHandler.handle_request, h1, h2]
  · simp [DnsHandler.handle, DnsHandler.handle_request, h1]

/-- c2 witness at a concrete rejected request. -/
theorem c2_witness :
    (DnsHandler.handle exNoIpv6 reqBadOp).result =
      Except.error (DNSError.InvalidOpQuery "invalid OP code: STATUS") ∧
    DnsHandler.handle_request exNoIpv6 reqBadOp = (DnsHandler.servFailInfo, []) :=
  ⟨rfl,
    c2_failure_servfail_info exNoIpv6 reqBadOp
      (DNSError.InvalidOpQuery "invalid OP code: STATUS") rfl⟩

/-- A canned successful answer message carrying an EDNS extension. -/
def answerMsg : Message :=
  { Message.new with
    header :=
      { Header.new with
        message_type := MessageType.Response
        recursion_available := true
        authoritative := true }
    answers := [{ rtype := RecordType.A, rdata := 93 }]
    edns := some { dnssec_ok := true, payload := 42 } }

/-- An exchanger that serves ipv6 and returns the canned answer. -/
def exStub : Exchanger :=
  { ipv6 := true, exchange := fun _ => Except.ok answerMsg }

/-- A well-formed A query carrying EDNS with DNSSEC-OK, additionals, name
servers and a SIG0 record. -/
def reqEdns : Request :=
  { header := { Header.new with recursion_desired := true }
    query := { original := { name := "www.example.com.", qtype := RecordType.A, qclass := 1 } }
    additionals := [{ rtype := RecordType.TXT, rdata := 5 }]
    name_servers := [{ rtype := RecordType.NS, rdata := 9 }]
    sig0 := [{ rtype := RecordType.SOA, rdata := 3 }]
    edns := some { dnssec_ok := true, payload := 7 } }

/-- C5: for every validated, unfiltered query answered successfully by the
exchanger, the sent response carries an EDNS extension x exactly when the
inbound query carried EDNS with DNSSEC-OK set and the answer carried the
extension x; in every other case the response has no EDNS extension. -/
theorem c5_dnssec_echo (ex : Exchanger) (request : Request) (a : Message)
    (hop : request.op_code = OpCode.Query)
    (hmt : request.message_type = MessageType.Query)
    (hfilter : ¬(request.query.query_type = RecordType.AAAA ∧ ex.ipv6 = false))
    (hex : ex.exchange (forwardMessage request) = Except.ok a) :
    ∃ rv, (DnsHandler.handle ex request).sent = [rv] ∧
      ∀ x, rv.edns = some x ↔
        ((∃ e, request.edns = some e ∧ e.dnssec_ok = true) ∧
          a.extensions = some x) := by
  cases he : request.edns with
  | none =>
    simp [DnsHandler.handle, hop, hmt, hfilter, hex, he, sendResponseInfo,
      MsgResponse.build, MsgResponse.set_edns, Message.extensions]
  | some ed =>
    cases hds : ed.dnssec_ok with
    | false =>
      simp [DnsHandler.handle, hop, hmt, hfilter, hex, he, hds, sendResponseInfo,
        MsgResponse.build, MsgResponse.set_edns, Message.extensions]
    | true =>
      cases hext : a.edns with
      | none =>
        simp [DnsHandler.handle, hop, hmt, hfilter, hex, he, hds, hext,
          sendResponseInfo, MsgResponse.build, MsgResponse.set_edns, Message.extensions]
      | some x0 =>
        simp [DnsHandler.handle, hop, hmt, hfilter, hex, he, hds, hext,
          sendResponseInfo, MsgResponse.build, MsgResponse.set_edns, Message.extensions]

/-- c5 witness at a concrete DNSSEC-OK query and an answer with an EDNS
extension. -/
theorem c5_witness :
    reqEdns.op_code = OpCode.Query ∧
    reqEdns.message_type = MessageType.Query ∧
    ¬(reqEdns.query.query_type = RecordType.AAAA ∧ exStub.ipv6 = false) ∧
    exStub.exchange (forwardMessage reqEdns) = Except.ok answerMsg ∧
    (∃ rv, (DnsHandler.handle exStub reqEdns).sent = [rv] ∧
      ∀ x, rv.edns = some x ↔
        ((∃ e, reqEdns.edns = some e ∧ e.dnssec_ok = true) ∧
          answerMsg.extensions = some x)) :=
  ⟨rfl, rfl, by decide, rfl,
    c5_dnssec_echo exStub reqEdns answerMsg rfl rfl (by decide) rfl⟩

/-- C6: for every validated query not stopped by the AAAA filter, the
message handed to the exchanger preserves the inbound opcode, message
type, recursion-desired flag, original question, additional records,
name-server records, SIG0 records, and the EDNS block. -/
theorem c6_forward_preserves (ex : Exchanger) (request : Request)
    (hop : request.op_code = OpCode.Query)
    (hmt : request.message_type = MessageType.Query)
    (hfilter : ¬(request.query.query_type = RecordType.AAAA ∧ ex.ipv6 = false)) :
    (DnsHandler.handle ex request).exchanged = [forwardMessage request] ∧
    (forwardMessage request).op_code = request.op_code ∧
    (forwardMessage request).message_type = request.message_type ∧
    (forwardMessage request).recursion_desired = request.recursion_desired ∧
    (forwardMessage request).queries = [request.query.original] ∧
    (forwardMessage request).additionals = request.additionals ∧
    (forwardMessage request).name_servers = request.name_servers ∧
    (forwardMessage request).sig0 = request.sig0 ∧
    (forwardMessage request).edns = request.edns := by
  constructor
  · cases hx : ex.exchange (forwardMessage request) <;>
      simp [DnsHandler.handle, hop, hmt, hfilter, hx]
  · simp [forwardMessage_eq, Message.op_code, Message.message_type,
      Message.recursion_desired]

/-- c6 witness at a concrete request carrying every preserved section. -/
theorem c6_witness :
    reqEdns.op_code = OpCode.Query ∧
    reqEdns.message_type = MessageType.Query ∧
    ¬(reqEdns.query.query_type = RecordType.AAAA ∧ exStub.ipv6 = false) ∧
    ((DnsHandler.handle exStub reqEdns).exchanged = [forwardMessage reqEdns] ∧
     (forwardMessage reqEdns).op_code = reqEdns.op_code ∧
     (forwardMessage reqEdns).message_type = reqEdns.message_type ∧
     (forwardMessage reqEdns).recursion_desired = reqEdns.recursion_desired ∧
     (forwardMessage reqEdns).queries = [reqEdns.query.original] ∧
     (forwardMessage reqEdns).additionals = reqEdns.additionals ∧
     (forwardMessage reqEdns).name_servers = reqEdns.name_servers ∧
     (forwardMessage reqEdns).sig0 = reqEdns.sig0 ∧
     (forwardMessage reqEdns).edns = reqEdns.edns) :=
  ⟨rfl, rfl, by decide, c6_forward_preserves exStub reqEdns rfl rfl (by decide)⟩

lemma stepUdp_ok_shape (env : Env) (st : OrchSt) (o : Option String) (st2 : OrchSt)
    (h : stepUdp env st o = Except.ok st2) :
    ∃ tail, st2.events = st.events ++ tail ∧
      tail.map RegEvent.tag = (o.toList.map fun _ => Transport.udp) ∧
      (∀ ev ∈ tail, RegEvent.tag ev = Transport.udp) ∧
      (∀ ev ∈ tail, RegEvent.timeout ev = none) := by
  cases o with
  | none =>
    simp only [stepUdp] at h
    cases h
    exact ⟨[], by simp⟩
  | some a =>
    cases hb : env.bindUdp a with
    | error e => simp [stepUdp, hb] at h
    | ok u =>
      simp only [stepUdp, hb] at h
      cases h
      exact ⟨[RegEvent.socket a], by simp [RegEvent.tag, RegEvent.timeout]⟩

lemma stepUdp_error_events (env : Env) (st : OrchSt) (o : Option String) (st2 : OrchSt)
    (h : stepUdp env st o = Except.error st2) : st2.events = st.events := by
  cases o with
  | none => simp [stepUdp] at h
  | some a =>
    cases hb : env.bindUdp a with
    | error e =>
      simp only [stepUdp, hb] at h
      cases h
      rfl
    | ok u => simp [stepUdp, hb] at h

lemma stepTcp_ok_shape (env : Env) (st : OrchSt) (o : Option String) (st2 : OrchSt)
    (h : stepTcp env st o = Except.ok st2) :
    ∃ tail, st2.events = st.events ++ tail ∧
      tail.map RegEvent.tag = (o.toList.map fun _ => Transport.tcp) ∧
      (∀ ev ∈ tail, RegEvent.tag ev = Transport.tcp) ∧
      (∀ ev ∈ tail, RegEvent.timeout ev = some DEFAULT_DNS_SERVER_TIMEOUT) := by
  cases o with
  | none =>
    simp only [stepTcp] at h
    cases h
    exact ⟨[], by simp⟩
  | some a =>
    cases hb : env.bindTcp a with
    | error e => simp [stepTcp, hb] at h
    | ok u =>
      simp only [stepTcp, hb] at h
      cases h
      exact ⟨[RegEvent.listener a DEFAULT_DNS_SERVER_TIMEOUT],
        by simp [RegEvent.tag, RegEvent.timeout]⟩

lemma stepTcp_error_events (env : Env) (st : OrchSt) (o : Option String) (st2 : OrchSt)
    (h : stepTcp env st o = Except.error st2) : st2.events = st.events := by
  cases o with
  | none => simp [stepTcp] at h
  | some a =>
    cases hb : env.bindTcp a with
    | error e =>
      simp only [stepTcp, hb] at h
      cases h
      rfl
    | ok u => simp [stepTcp, hb] at h

lemma stepDoh_ok_shape (env : Env) (cwd : String) (st : OrchSt) (o : Option DoHConfig)
    (st2 : OrchSt) (h : stepDoh env cwd st o = Except.ok st2) :
    ∃ tail, st2.events = st.events ++ tail ∧
      tail.map RegEvent.tag = (o.toList.map fun _ => Transport.doh) ∧
      (∀ ev ∈ tail, RegEvent.tag ev = Transport.doh) ∧
      (∀ ev ∈ tail, RegEvent.timeout ev = some DEFAULT_DNS_SERVER_TIMEOUT) := by
  cases o with
  | none =>
    simp only [stepDoh] at h
    cases h
    exact ⟨[], by simp⟩
  | some c =>
    cases hb : env.bindTcp c.addr with
    | error e => simp [stepDoh, hb] at h
    | ok u =>
      cases hm : resolveMaterial env cwd c.ca_key c.ca_cert with
      | error e => simp [stepDoh, hb, hm] at h
      | ok p =>
        obtain ⟨sc, sk⟩ := p
        cases hr : env.registerHttps c.addr with
        | error e => simp [stepDoh, hb, hm, hr] at h
        | ok u2 =>
          simp only [stepDoh, hb, hm, hr] at h
          cases h
          exact ⟨[RegEvent.https c.addr DEFAULT_DNS_SERVER_TIMEOUT sc sk c.hostname],
            by simp [RegEvent.tag, RegEvent.timeout]⟩

lemma stepDoh_error_events (env : Env) (cwd : String) (st : OrchSt) (o : Option DoHConfig)
    (st2 : OrchSt) (h : stepDoh env cwd st o = Except.error st2) : st2.events = st.events := by
  cases o with
  | none => simp [stepDoh] at h
  | some c =>
    cases hb : env.bindTcp c.addr with
    | error e =>
      simp only [stepDoh, hb] at h
      cases h
      rfl
    | ok u =>
      cases hm : resolveMaterial env cwd c.ca_key c.ca_cert with
      | error e =>
        simp only [stepDoh, hb, hm] at h
        cases h
        rfl
      | ok p =>
        obtain ⟨sc, sk⟩ := p
        cases hr : env.registerHttps c.addr with
        | error e =>
          simp only [stepDoh, hb, hm, hr] at h
          cases h
          rfl
        | ok u2 => simp [stepDoh, hb, hm, hr] at h

lemma stepDot_ok_shape (env : Env) (cwd : String) (st : OrchSt) (o : Option DoTConfig)
    (st2 : OrchSt) (h : stepDot env cwd st o = Except.ok st2) :
    ∃ tail, st2.events = st.events ++ tail ∧
      tail.map RegEvent.tag = (o.toList.map fun _ => Transport.dot) ∧
      (∀ ev ∈ tail, RegEvent.tag ev = Transport.dot) ∧
      (∀ ev ∈ tail, RegEvent.timeout ev = some DEFAULT_DNS_SERVER_TIMEOUT) := by
  cases o with
  | none =>
    simp only [stepDot] at h
    cases h
    exact ⟨[], by simp⟩
  | some c =>
    cases hb : env.bindTcp c.addr with
    | error e => simp [stepDot, hb] at h
    | ok u =>
      cases hm : resolveMaterial env cwd c.ca_key c.ca_cert with
      | error e => simp [stepDot, hb, hm] at h
      | ok p =>
        obtain ⟨sc, sk⟩ := p
        cases hr : env.registerTls c.addr with
        | error e => simp [stepDot, hb, hm, hr] at h
        | ok u2 =>
          simp only [stepDot, hb, hm, hr] at h
          cases h
          exact ⟨[RegEvent.tls c.addr DEFAULT_DNS_SERVER_TIMEOUT sc sk],
            by simp [RegEvent.tag, RegEvent.timeout]⟩

lemma stepDot_error_events (env : Env) (cwd : String) (st : OrchSt) (o : Option DoTConfig)
    (st2 : OrchSt) (h : stepDot env cwd st o = Except.error st2) : st2.events = st.events := by
  cases o with
  | none => simp [stepDot] at h
  | some c =>
    cases hb : env.bindTcp c.addr with
    | error e =>
      simp only [stepDot, hb] at h
      cases h
      rfl
    | ok u =>
      cases hm : resolveMaterial env cwd c.ca_key c.ca_cert with
      | error e =>
        simp only [stepDot, hb, hm] at h
        cases h
        rfl
      | ok p =>
        obtain ⟨sc, sk⟩ := p
        cases hr : env.registerTls c.addr with
        | error e =>
          simp only [stepDot, hb, hm, hr] at h
          cases h
          rfl
        | ok u2 => simp [stepDot, hb, hm, hr] at h

lemma stepDoh3_ok_shape (env : Env) (cwd : String) (st : OrchSt) (o : Option DoH3Config)
    (st2 : OrchSt) (h : stepDoh3 env cwd st o = Except.ok st2) :
    ∃ tail, st2.events = st.events ++ tail ∧
      tail.map RegEvent.tag = (o.toList.map fun _ => Transport.doh3) ∧
      (∀ ev ∈ tail, RegEvent.tag ev = Transport.doh3) ∧
      (∀ ev ∈ tail, RegEvent.timeout ev = some DEFAULT_DNS_SERVER_TIMEOUT) := by
  cases o with
  | none =>
    simp only [stepDoh3] at h
    cases h
    exact ⟨[], by simp⟩
  | some c =>
    cases hb : env.bindUdp c.addr with
    | error e => simp [stepDoh3, hb] at h
    | ok u =>
      cases hm : resolveMaterial env cwd c.ca_key c.ca_cert with
      | error e => simp [stepDoh3, hb, hm] at h
      | ok p =>
        obtain ⟨sc, sk⟩ := p
        cases hr : env.registerH3 c.addr with
        | error e => simp [stepDoh3, hb, hm, hr] at h
        | ok u2 =>
          simp only [stepDoh3, hb, hm, hr] at h
          cases h
          exact ⟨[RegEvent.h3 c.addr DEFAULT_DNS_SERVER_TIMEOUT sc sk c.hostname],
            by simp [RegEvent.tag, RegEvent.timeout]⟩

lemma stepDoh3_error_events (env : Env) (cwd : String) (st : OrchSt) (o : Option DoH3Config)
    (st2 : OrchSt) (h : stepDoh3 env cwd st o = Except.error st2) : st2.events = st.events := by
  cases o with
  | none => simp [stepDoh3] at h
  | some c =>
    cases hb : env.bindUdp c.addr with
    | error e =>
      simp only [stepDoh3, hb] at h
      cases h
      rfl
    | ok u =>
      cases hm : resolveMaterial env cwd c.ca_key c.ca_cert with
      | error e =>
        simp only [stepDoh3, hb, hm] at h
        cases h
        rfl
      | ok p =>
        obtain ⟨sc, sk⟩ := p
        cases hr : env.registerH3 c.addr with
        | error e =>
          simp only [stepDoh3, hb, hm, hr] at h
          cases h
          rfl
        | ok u2 => simp [stepDoh3, hb, hm, hr] at h

lemma events_invariant_extend {P : RegEvent → Prop} {old tail new : List RegEvent}
    (hnew : new = old ++ tail) (hold : ∀ ev ∈ old, P ev) (htail : ∀ ev ∈ tail, P ev) :
    ∀ ev ∈ new, P ev := by
  subst hnew
  intro ev hev
  rcases List.mem_append.mp hev with h | h
  · exact hold ev h
  · exact htail ev h

/-- The UDP transport is configured and its bind fails. -/
def udpTransportFails (env : Env) (cfg : DNSListenAddr) : Prop :=
  ∃ a, cfg.udp = some a ∧ exceptFails (env.bindUdp a)

/-- The TCP transport is configured and its bind fails. -/
def tcpTransportFails (env : Env) (cfg : DNSListenAddr) : Prop :=
  ∃ a, cfg.tcp = some a ∧ exceptFails (env.bindTcp a)

/-- The DoH transport is configured and its bind, certificate resolution
or listener registration fails. -/
def dohTransportFails (env : Env) (cfg : DNSListenAddr) (cwd : String) : Prop :=
  ∃ c, cfg.doh = some c ∧
    (exceptFails (env.bindTcp c.addr) ∨
     exceptFails (resolveMaterial env cwd c.ca_key c.ca_cert) ∨
     exceptFails (env.registerHttps c.addr))

/-- The DoT transport is configured and its bind, certificate resolution
or listener registration fails. -/
def dotTransportFails (env : Env) (cfg : DNSListenAddr) (cwd : String) : Prop :=
  ∃ c, cfg.dot = some c ∧
    (exceptFails (env.bindTcp c.addr) ∨
     exceptFails (resolveMaterial env cwd c.ca_key c.ca_cert) ∨
     exceptFails (env.registerTls c.addr))

/-- The DoH3 transport is configured and its bind, certificate resolution
or listener registration fails. -/
def doh3TransportFails (env : Env) (cfg : DNSListenAddr) (cwd : String) : Prop :=
  ∃ c, cfg.doh3 = some c ∧
    (exceptFails (env.bindUdp c.addr) ∨
     exceptFails (resolveMaterial env cwd c.ca_key c.ca_cert) ∨
     exceptFails (env.registerH3 c.addr))

lemma stepUdp_fails (env : Env) (st : OrchSt) (a : String)
    (h : exceptFails (env.bindUdp a)) :
    ∃ st2, stepUdp env st (some a) = Except.error st2 := by
  obtain ⟨e, he⟩ := h
  simp [stepUdp, he]

lemma stepTcp_fails (env : Env) (st : OrchSt) (a : String)
    (h : exceptFails (env.bindTcp a)) :
    ∃ st2, stepTcp env st (some a) = Except.error st2 := by
  obtain ⟨e, he⟩ := h
  simp [stepTcp, he]

lemma stepDoh_fails (env : Env) (cwd : String) (st : OrchSt) (c : DoHConfig)
    (h : exceptFails (env.bindTcp c.addr) ∨
         exceptFails (resolveMaterial env cwd c.ca_key c.ca_cert) ∨
         exceptFails (env.registerHttps c.addr)) :
    ∃ st2, stepDoh env cwd st (some c) = Except.error st2 := by
  rcases h with ⟨e, he⟩ | ⟨e, he⟩ | ⟨e, he⟩
  · simp [stepDoh, he]
  · cases hb : env.bindTcp c.addr with
    | error e2 => simp [stepDoh, hb]
    | ok u => simp [stepDoh, hb, he]
  · cases hb : env.bindTcp c.addr with
    | error e2 => simp [stepDoh, hb]
    | ok u =>
      cases hm : resolveMaterial env cwd c.ca_key c.ca_cert with
      | error e2 => simp [stepDoh, hb, hm]
      | ok p =>
        obtain ⟨sc, sk⟩ := p
        simp [stepDoh, hb, hm, he]

lemma stepDot_fails (env : Env) (cwd : String) (st : OrchSt) (c : DoTConfig)
    (h : exceptFails (env.bindTcp c.addr) ∨
         exceptFails (resolveMaterial env cwd c.ca_key c.ca_cert) ∨
         exceptFails (env.registerTls c.addr)) :
    ∃ st2, stepDot env cwd st (some c) = Except.error st2 := by
  rcases h with ⟨e, he⟩ | ⟨e, he⟩ | ⟨e, he⟩
  · simp [stepDot, he]
  · cases hb : env.bindTcp c.addr with
    | error e2 => simp [stepDot, hb]
    | ok u => simp [stepDot, hb, he]
  · cases hb : env.bindTcp c.addr with
    | error e2 => simp [stepDot, hb]
    | ok u =>
      cases hm : resolveMaterial env cwd c.ca_key c.ca_cert with
      | error e2 => simp [stepDot, hb, hm]
      | ok p =>
        obtain ⟨sc, sk⟩ := p
        simp [stepDot, hb, hm, he]

lemma stepDoh3_fails (env : Env) (cwd : String) (st : OrchSt) (c : DoH3Config)
    (h : exceptFails (env.bindUdp c.addr) ∨
         exceptFails (resolveMaterial env cwd c.ca_key c.ca_cert) ∨
         exceptFails (env.registerH3 c.addr)) :
    ∃ st2, stepDoh3 env cwd st (some c) = Except.error st2 := by
  rcases h with ⟨e, he⟩ | ⟨e, he⟩ | ⟨e, he⟩
  · simp [stepDoh3, he]
  · cases hb : env.bindUdp c.addr with
    | error e2 => simp [stepDoh3, hb]
    | ok u => simp [stepDoh3, hb, he]
  · cases hb : env.bindUdp c.addr with
    | error e2 => simp [stepDoh3, hb]
    | ok u =>
      cases hm : resolveMaterial env cwd c.ca_key c.ca_cert with
      | error e2 => simp [stepDoh3, hb, hm]
      | ok p =>
        obtain ⟨sc, sk⟩ := p
        simp [stepDoh3, hb, hm, he]

/-- An environment in which every bind and registration succeeds and both
loaders succeed. -/
def envOk : Env :=
  { bindUdp := fun _ => Except.ok ()
    bindTcp := fun _ => Except.ok ()
    loadPrivKey := fun _ => Except.ok (PrivKey.custom 1)
    loadCertChain := fun _ => Except.ok (CertChain.custom 2)
    registerHttps := fun _ => Except.ok ()
    registerTls := fun _ => Except.ok ()
    registerH3 := fun _ => Except.ok () }

/-- A configuration with all five transports enabled and default TLS
material. -/
def cfgAll : DNSListenAddr :=
  { udp := some "127.0.0.1:53553"
    tcp := some "127.0.0.1:53554"
    doh := some
      { addr := "127.0.0.1:53556", ca_cert := none, ca_key := none,
        hostname := some "dns.example.com" }
    dot := some { addr := "127.0.0.1:53555", ca_cert := none, ca_key := none }
    doh3 := some
      { addr := "127.0.0.1:53557", ca_cert := none, ca_key := none,
        hostname := some "dns.example.com" } }

/-- An environment in which binds succeed but reading any private key file
fails (an unreadable custom key). -/
def envC1 : Env :=
  { bindUdp := fun _ => Except.ok ()
    bindTcp := fun _ => Except.ok ()
    loadPrivKey := fun _ => Except.error "unreadable key file"
    loadCertChain := fun _ => Except.ok (CertChain.custom 7)
    registerHttps := fun _ => Except.ok ()
    registerTls := fun _ => Except.ok ()
    registerH3 := fun _ => Except.ok () }

/-- A DoT transport with a custom key path. -/
def dotC1 : DoTConfig :=
  { addr := "127.0.0.1:53555", ca_cert := none, ca_key := some "key.pem" }

/-- UDP plus a DoT transport whose custom key will fail to load. -/
def cfgC1 : DNSListenAddr :=
  { udp := some "127.0.0.1:53553"
    tcp := none
    doh := none
    dot := some dotC1
    doh3 := none }

/-- c1 counterexample: UDP is configured and bindable and DoT is
configured with a custom key whose load fails; the orchestrator returns
None, so no transport serves, refuting that the failing transport is
merely skipped while UDP still serves. -/
theorem c1_counterexample :
    cfgC1.udp = some "127.0.0.1:53553" ∧
    envC1.bindUdp "127.0.0.1:53553" = Except.ok () ∧
    cfgC1.dot = some dotC1 ∧
    exceptFails (resolveMaterial envC1 "/base" dotC1.ca_key dotC1.ca_cert) ∧
    (get_dns_listener envC1 cfgC1 "/base").2 = none :=
  ⟨rfl, rfl, rfl, ⟨"unreadable key file", rfl⟩, rfl⟩

/-- C1 (amended): when any configured transport fails its bind,
certificate resolution or registration, get_dns_listener returns None:
the whole startup is aborted and no transport serves; a failing transport
is not skipped individually. -/
theorem c1_any_failure_aborts (env : Env) (cfg : DNSListenAddr) (cwd : String)
    (h : udpTransportFails env cfg ∨ tcpTransportFails env cfg ∨
         dohTransportFails env cfg cwd ∨ dotTransportFails env cfg cwd ∨
         doh3TransportFails env cfg cwd) :
    (get_dns_listener env cfg cwd).2 = none := by
  unfold get_dns_listener runTransports
  cases r1 : stepUdp env OrchSt.init cfg.udp with
  | error st1 => simp [r1, except_bind_error]
  | ok st1 =>
    cases r2 : stepTcp env st1 cfg.tcp with
    | error st2 => simp [r1, r2, except_bind_ok, except_bind_error]
    | ok st2 =>
      cases r3 : stepDoh env cwd st2 cfg.doh with
      | error st3 => simp [r1, r2, r3, except_bind_ok, except_bind_error]
      | ok st3 =>
        cases r4 : stepDot env cwd st3 cfg.dot with
        | error st4 => simp [r1, r2, r3, r4, except_bind_ok, except_bind_error]
        | ok st4 =>
          cases r5 : stepDoh3 env cwd st4 cfg.doh3 with
          | error st5 => simp [r1, r2, r3, r4, r5, except_bind_ok, except_bind_error]
          | ok st5 =>
            exfalso
            rcases h with ⟨a, hcfg, hf⟩ | ⟨a, hcfg, hf⟩ | ⟨c, hcfg, hf⟩ |
              ⟨c, hcfg, hf⟩ | ⟨c, hcfg, hf⟩
            · rw [hcfg] at r1
              obtain ⟨stx, hx⟩ := stepUdp_fails env OrchSt.init a hf
              rw [hx] at r1
              simp at r1
            · rw [hcfg] at r2
              obtain ⟨stx, hx⟩ := stepTcp_fails env st1 a hf
              rw [hx] at r2
              simp at r2
            · rw [hcfg] at r3
              obtain ⟨stx, hx⟩ := stepDoh_fails env cwd st2 c hf
              rw [hx] at r3
              simp at r3
            · rw [hcfg] at r4
              obtain ⟨stx, hx⟩ := stepDot_fails env cwd st3 c hf
              rw [hx] at r4
              simp at r4
            · rw [hcfg] at r5
              obtain ⟨stx, hx⟩ := stepDoh3_fails env cwd st4 c hf
              rw [hx] at r5
              simp at r5

/-- c1 witness: the amended theorem applied to the concrete failing DoT
scenario. -/
theorem c1_witness :
    dotTransportFails envC1 cfgC1 "/base" ∧
    (get_dns_listener envC1 cfgC1 "/base").2 = none :=
  have hf : dotTransportFails envC1 cfgC1 "/base" :=
    ⟨dotC1, rfl, Or.inr (Or.inl ⟨"unreadable key file", rfl⟩)⟩
  ⟨hf, c1_any_failure_aborts envC1 cfgC1 "/base" (Or.inr (Or.inr (Or.inr (Or.inl hf))))⟩

/-- C7: key and cert are resolved independently; a given custom path is
resolved relative to the base directory and loaded, with a load failure
failing the whole resolution and never falling back to the default; an
absent path uses the built-in default; custom cert with default key and
custom key with default cert are both accepted. -/
theorem c7_cert_resolution (env : Env) (cwd : String) :
    (∀ p e, env.loadPrivKey (pathJoin cwd p) = Except.error e →
      ∀ cc, resolveMaterial env cwd (some p) cc = Except.error e) ∧
    (∀ p k, env.loadPrivKey (pathJoin cwd p) = Except.ok k →
      resolveKey env cwd (some p) = Except.ok k) ∧
    (resolveKey env cwd none = Except.ok load_default_key) ∧
    (∀ p e, env.loadCertChain (pathJoin cwd p) = Except.error e →
      ∀ ck k, resolveKey env cwd ck = Except.ok k →
        resolveMaterial env cwd ck (some p) = Except.error e) ∧
    (∀ p c, env.loadCertChain (pathJoin cwd p) = Except.ok c →
      resolveCert env cwd (some p) = Except.ok c) ∧
    (resolveCert env cwd none = Except.ok load_default_cert) ∧
    (∀ p c, env.loadCertChain (pathJoin cwd p) = Except.ok c →
      resolveMaterial env cwd none (some p) = Except.ok (c, load_default_key)) ∧
    (∀ p k, env.loadPrivKey (pathJoin cwd p) = Except.ok k →
      resolveMaterial env cwd (some p) none = Except.ok (load_default_cert, k)) := by
  refine ⟨?a, ?b, ?c, ?d, ?e, ?f, ?g, ?h⟩
  · intro p e hl cc
    simp [resolveMaterial, resolveKey, hl]
  · intro p k hl
    simp [resolveKey, hl]
  · rfl
  · intro p e hl ck k hk
    simp [resolveMaterial, hk, resolveCert, hl]
  · intro p c hl
    simp [resolveCert, hl]
  · rfl
  · intro p c hl
    simp [resolveMaterial, resolveKey, resolveCert, hl]
  · intro p k hl
    simp [resolveMaterial, resolveKey, resolveCert, hl]

/-- An environment whose key loader succeeds and whose cert loader fails. -/
def envC7 : Env :=
  { bindUdp := fun _ => Except.ok ()
    bindTcp := fun _ => Except.ok ()
    loadPrivKey := fun _ => Except.ok (PrivKey.custom 3)
    loadCertChain := fun _ => Except.error "bad cert file"
    registerHttps := fun _ => Except.ok ()
    registerTls := fun _ => Except.ok ()
    registerH3 := fun _ => Except.ok () }

/-- c7 witness: the mixed custom-key/default-cert case succeeds and a cert
load failure aborts the resolution without falling back. -/
theorem c7_witness :
    envC7.loadPrivKey (pathJoin "/base" "key.pem") = Except.ok (PrivKey.custom 3) ∧
    resolveMaterial envC7 "/base" (some "key.pem") none =
      Except.ok (load_default_cert, PrivKey.custom 3) ∧
    envC7.loadCertChain (pathJoin "/base" "cert.pem") = Except.error "bad cert file" ∧
    resolveMaterial envC7 "/base" (some "key.pem") (some "cert.pem") =
      Except.error "bad cert file" :=
  ⟨rfl,
   (c7_cert_resolution envC7 "/base").2.2.2.2.2.2.2 "key.pem" (PrivKey.custom 3) rfl,
   rfl,
   (c7_cert_resolution envC7 "/base").2.2.2.1 "cert.pem" "bad cert file" rfl
     (some "key.pem") (PrivKey.custom 3)
     ((c7_cert_resolution envC7 "/base").2.1 "key.pem" (PrivKey.custom 3) rfl)⟩

/-- C8: with no transport configured, get_dns_listener returns no server
(None) without binding any socket, and this outcome is not an error value. -/
theorem c8_no_transports (env : Env) (cwd : String) :
    get_dns_listener env DNSListenAddr.default cwd = (OrchSt.init, none) ∧
    OrchSt.init.binds = [] :=
  ⟨rfl, rfl⟩

/-- The transport tags of a configuration in the order the code processes
them: UDP, TCP, DoH, DoT, DoH3. -/
def cfgTags (cfg : DNSListenAddr) : List Transport :=
  (cfg.udp.toList.map fun _ => Transport.udp) ++
  (cfg.tcp.toList.map fun _ => Transport.tcp) ++
  (cfg.doh.toList.map fun _ => Transport.doh) ++
  (cfg.dot.toList.map fun _ => Transport.dot) ++
  (cfg.doh3.toList.map fun _ => Transport.doh3)

/-- c9 counterexample: with all five transports configured and everything
succeeding, the registration trace puts the DoH registration before the
DoT registration, so the claimed order UDP, TCP, DoT, DoH, DoH3 is false. -/
theorem c9_counterexample :
    (get_dns_listener envOk cfgAll "/base").2 =
      some [RegEvent.socket "127.0.0.1:53553",
        RegEvent.listener "127.0.0.1:53554" DEFAULT_DNS_SERVER_TIMEOUT,
        RegEvent.https "127.0.0.1:53556" DEFAULT_DNS_SERVER_TIMEOUT
          CertChain.builtinDefault PrivKey.builtinDefault (some "dns.example.com"),
        RegEvent.tls "127.0.0.1:53555" DEFAULT_DNS_SERVER_TIMEOUT
          CertChain.builtinDefault PrivKey.builtinDefault,
        RegEvent.h3 "127.0.0.1:53557" DEFAULT_DNS_SERVER_TIMEOUT
          CertChain.builtinDefault PrivKey.builtinDefault (some "dns.example.com")] ∧
    (get_dns_listener envOk cfgAll "/base").2.map (fun l => l.map RegEvent.tag) ≠
      some [Transport.udp, Transport.tcp, Transport.dot, Transport.doh,
        Transport.doh3] := by
  constructor
  · rfl
  · decide

/-- C9 (amended): every completed run registers the configured transports
in the fixed order UDP, TCP, DoH, DoT, DoH3. -/
theorem c9_registration_order (env : Env) (cfg : DNSListenAddr) (cwd : String)
    (st : OrchSt) (evs : List RegEvent)
    (h : get_dns_listener env cfg cwd = (st, some evs)) :
    evs.map RegEvent.tag = cfgTags cfg := by
  unfold get_dns_listener at h
  cases r : runTransports env cfg cwd with
  | error stE =>
    rw [r] at h
    simp at h
  | ok stO =>
    rw [r] at h
    by_cases hs : stO.has_server
    · have hevs : stO.events = evs := by
        simp [hs] at h
        exact h.2
      unfold runTransports at r
      cases r1 : stepUdp env OrchSt.init cfg.udp with
      | error st1 =>
        rw [r1] at r
        simp [except_bind_error] at r
      | ok st1 =>
        rw [r1, except_bind_ok] at r
        cases r2 : stepTcp env st1 cfg.tcp with
        | error st2 =>
          rw [r2] at r
          simp [except_bind_error] at r
        | ok st2 =>
          rw [r2, except_bind_ok] at r
          cases r3 : stepDoh env cwd st2 cfg.doh with
          | error st3 =>
            rw [r3] at r
            simp [except_bind_error] at r
          | ok st3 =>
            rw [r3, except_bind_ok] at r
            cases r4 : stepDot env cwd st3 cfg.dot with
            | error st4 =>
              rw [r4] at r
              simp [except_bind_error] at r
            | ok st4 =>
              rw [r4, except_bind_ok] at r
              cases r5 : stepDoh3 env cwd st4 cfg.doh3 with
              | error st5 =>
                rw [r5] at r
                simp [except_bind_error] at r
              | ok st5 =>
                rw [r5, except_bind_ok] at r
                have h5O : st5 = stO := by
                  simpa [pure, Except.pure] using r
                obtain ⟨t1, he1, ht1, _, _⟩ :=
                  stepUdp_ok_shape env OrchSt.init cfg.udp st1 r1
                obtain ⟨t2, he2, ht2, _, _⟩ := stepTcp_ok_shape env st1 cfg.tcp st2 r2
                obtain ⟨t3, he3, ht3, _, _⟩ := stepDoh_ok_shape env cwd st2 cfg.doh st3 r3
                obtain ⟨t4, he4, ht4, _, _⟩ := stepDot_ok_shape env cwd st3 cfg.dot st4 r4
                obtain ⟨t5, he5, ht5, _, _⟩ :=
                  stepDoh3_ok_shape env cwd st4 cfg.doh3 st5 r5
                rw [← hevs, ← h5O, he5, he4, he3, he2, he1]
                simp [OrchSt.init, cfgTags, ht1, ht2, ht3, ht4, ht5, List.map_append,
                  List.append_assoc]
    · simp [hs] at h

/-- The registration trace of the all-transports configuration. -/
def evsAll : List RegEvent :=
  [RegEvent.socket "127.0.0.1:53553",
   RegEvent.listener "127.0.0.1:53554" DEFAULT_DNS_SERVER_TIMEOUT,
   RegEvent.https "127.0.0.1:53556" DEFAULT_DNS_SERVER_TIMEOUT CertChain.builtinDefault
     PrivKey.builtinDefault (some "dns.example.com"),
   RegEvent.tls "127.0.0.1:53555" DEFAULT_DNS_SERVER_TIMEOUT CertChain.builtinDefault
     PrivKey.builtinDefault,
   RegEvent.h3 "127.0.0.1:53557" DEFAULT_DNS_SERVER_TIMEOUT CertChain.builtinDefault
     PrivKey.builtinDefault (some "dns.example.com")]

/-- The final orchestration state of the all-transports run. -/
def stAll : OrchSt :=
  { has_server := true
    binds := [BindEvent.udp "127.0.0.1:53553", BindEvent.tcp "127.0.0.1:53554",
      BindEvent.tcp "127.0.0.1:53556", BindEvent.tcp "127.0.0.1:53555",
      BindEvent.udp "127.0.0.1:53557"]
    events := evsAll }

/-- c9 witness: the amended order theorem applied to the concrete
all-transports run. -/
theorem c9_witness :
    get_dns_listener envOk cfgAll "/base" = (stAll, some evsAll) ∧
    evsAll.map RegEvent.tag = cfgTags cfgAll :=
  ⟨rfl, c9_registration_order envOk cfgAll "/base" stAll evsAll rfl⟩

/-- A registration event carries no timeout when it is the UDP
register_socket call and the fixed default timeout otherwise. -/
def timeoutOk (ev : RegEvent) : Prop :=
  (RegEvent.tag ev = Transport.udp → RegEvent.timeout ev = none) ∧
  (RegEvent.tag ev ≠ Transport.udp →
    RegEvent.timeout ev = some DEFAULT_DNS_SERVER_TIMEOUT)

lemma tail_timeoutOk_udp {tail : List RegEvent}
    (htag : ∀ ev ∈ tail, RegEvent.tag ev = Transport.udp)
    (hto : ∀ ev ∈ tail, RegEvent.timeout ev = none) :
    ∀ ev ∈ tail, timeoutOk ev := by
  intro ev hev
  exact ⟨fun _ => hto ev hev, fun hne => absurd (htag ev hev) hne⟩

lemma tail_timeoutOk_other {tail : List RegEvent} {t : Transport}
    (hne : t ≠ Transport.udp)
    (htag : ∀ ev ∈ tail, RegEvent.tag ev = t)
    (hto : ∀ ev ∈ tail, RegEvent.timeout ev = some DEFAULT_DNS_SERVER_TIMEOUT) :
    ∀ ev ∈ tail, timeoutOk ev := by
  intro ev hev
  constructor
  · intro hudp
    rw [htag ev hev] at hudp
    exact absurd hudp hne
  · intro _
    exact hto ev hev

/-- The state a transport run ends in, whether it completed or aborted. -/
def finalSt : Except OrchSt OrchSt → OrchSt
  | Except.ok st => st
  | Except.error st => st

lemma runTransports_final_timeoutOk (env : Env) (cfg : DNSListenAddr) (cwd : String) :
    ∀ ev ∈ (finalSt (runTransports env cfg cwd)).events, timeoutOk ev := by
  unfold runTransports
  have h0 : ∀ ev ∈ OrchSt.init.events, timeoutOk ev := by
    intro ev hev
    simp [OrchSt.init] at hev
  cases r1 : stepUdp env OrchSt.init cfg.udp with
  | error st1 =>
    simp only [except_bind_error, finalSt]
    exact fun ev hev =>
      h0 ev ((stepUdp_error_events env OrchSt.init cfg.udp st1 r1) ▸ hev)
  | ok st1 =>
    simp only [except_bind_ok]
    obtain ⟨t1, he1, _, htag1, hto1⟩ := stepUdp_ok_shape env OrchSt.init cfg.udp st1 r1
    have h1 : ∀ ev ∈ st1.events, timeoutOk ev :=
      events_invariant_extend he1 h0 (tail_timeoutOk_udp htag1 hto1)
    cases r2 : stepTcp env st1 cfg.tcp with
    | error st2 =>
      simp only [except_bind_error, finalSt]
      exact fun ev hev => h1 ev ((stepTcp_error_events env st1 cfg.tcp st2 r2) ▸ hev)
    | ok st2 =>
      simp only [except_bind_ok]
      obtain ⟨t2, he2, _, htag2, hto2⟩ := stepTcp_ok_shape env st1 cfg.tcp st2 r2
      have h2 : ∀ ev ∈ st2.events, timeoutOk ev :=
        events_invariant_extend he2 h1
          (tail_timeoutOk_other (by decide) htag2 hto2)
      cases r3 : stepDoh env cwd st2 cfg.doh with
      | error st3 =>
        simp only [except_bind_error, finalSt]
        exact fun ev hev =>
          h2 ev ((stepDoh_error_events env cwd st2 cfg.doh st3 r3) ▸ hev)
      | ok st3 =>
        simp only [except_bind_ok]
        obtain ⟨t3, he3, _, htag3, hto3⟩ := stepDoh_ok_shape env cwd st2 cfg.doh st3 r3
        have h3 : ∀ ev ∈ st3.events, timeoutOk ev :=
          events_invariant_extend he3 h2
            (tail_timeoutOk_other (by decide) htag3 hto3)
        cases r4 : stepDot env cwd st3 cfg.dot with
        | error st4 =>
          simp only [except_bind_error, finalSt]
          exact fun ev hev =>
            h3 ev ((stepDot_error_events env cwd st3 cfg.dot st4 r4) ▸ hev)
        | ok st4 =>
          simp only [except_bind_ok]
          obtain ⟨t4, he4, _, htag4, hto4⟩ := stepDot_ok_shape env cwd st3 cfg.dot st4 r4
          have h4 : ∀ ev ∈ st4.events, timeoutOk ev :=
            events_invariant_extend he4 h3
              (tail_timeoutOk_other (by decide) htag4 hto4)
          cases r5 : stepDoh3 env cwd st4 cfg.doh3 with
          | error st5 =>
            simp only [except_bind_error, finalSt]
            exact fun ev hev =>
              h4 ev ((stepDoh3_error_events env cwd st4 cfg.doh3 st5 r5) ▸ hev)
          | ok st5 =>
            simp only [except_bind_ok]
            obtain ⟨t5, he5, _, htag5, hto5⟩ :=
              stepDoh3_ok_shape env cwd st4 cfg.doh3 st5 r5
            have h5 : ∀ ev ∈ st5.events, timeoutOk ev :=
              events_invariant_extend he5 h4
                (tail_timeoutOk_other (by decide) htag5 hto5)
            simpa [pure, Except.pure, finalSt] using h5

/-- C10: every stream or TLS-bearing registration (TCP, DoT, DoH, DoH3)
performed by any run of the orchestrator carries the single fixed
timeout constant of 5 seconds, and plain UDP registration carries no
timeout. -/
theorem c10_uniform_timeout (env : Env) (cfg : DNSListenAddr) (cwd : String) :
    DEFAULT_DNS_SERVER_TIMEOUT = 5 ∧
    ∀ ev ∈ (get_dns_listener env cfg cwd).1.events,
      (RegEvent.tag ev = Transport.udp → RegEvent.timeout ev = none) ∧
      (RegEvent.tag ev ≠ Transport.udp →
        RegEvent.timeout ev = some DEFAULT_DNS_SERVER_TIMEOUT) := by
  refine ⟨rfl, ?main⟩
  have hfin : (get_dns_listener env cfg cwd).1 = finalSt (runTransports env cfg cwd) := by
    unfold get_dns_listener
    cases r : runTransports env cfg cwd with
    | error st => simp [finalSt]
    | ok st => by_cases hs : st.has_server <;> simp [finalSt, hs]
  rw [hfin]
  intro ev hev
  exact runTransports_final_timeoutOk env cfg cwd ev hev

/-- c10 witness: the TCP registration of the concrete all-transports run
carries the 5-second timeout. -/
theorem c10_witness :
    (RegEvent.listener "127.0.0.1:53554" DEFAULT_DNS_SERVER_TIMEOUT ∈
      (get_dns_listener envOk cfgAll "/base").1.events) ∧
    RegEvent.timeout (RegEvent.listener "127.0.0.1:53554" DEFAULT_DNS_SERVER_TIMEOUT) =
      some DEFAULT_DNS_SERVER_TIMEOUT :=
  have hmem : RegEvent.listener "127.0.0.1:53554" DEFAULT_DNS_SERVER_TIMEOUT ∈
      (get_dns_listener envOk cfgAll "/base").1.events := by decide
  ⟨hmem, ((c10_uniform_timeout envOk cfgAll "/base").2 _ hmem).2 (by decide)⟩

end WatfaqDns
